import Mathlib

/-!
Shallow embedding of the `tapedeck` repository: two Django model files,
`src/music/models.py` (Artist, Album, Song) and `src/podcasts/models.py`
(Publisher, Episode).  The repository itself contains only declarative
schema definitions; the persistence semantics (validated create/update,
cascade delete) belong to the enclosing framework and are modelled
explicitly as state transitions over a `DB` value.

Field typing conventions of the embedding:
  * `CharField(max_length=100)`  → `String`, validated non-empty (Django
    `blank=False` default) and at most 100 characters;
  * `TextField()`                → `String`, validated non-empty;
  * `ImageField()` / `FileField()` → `String` asset reference, validated
    non-empty (required);
  * `PositiveSmallIntegerField()` → `Int` value, validated `0 ≤ v ≤ 32767`;
  * `FloatField()`               → `Rat` (exact stand-in for the stored
    numeric value; only order/sign properties are at stake);
  * `URLField()`                 → `String`, validated by a well-formedness
    check;
  * `ForeignKey(T)`              → `Nat` holding the primary key of the
    referenced record, validated to resolve at persistence time.
Every record additionally carries its primary key `id`, assigned by the
framework on creation.
-/

/-- `Artist` model from `src/music/models.py`:
`name = CharField(max_length=100)`, `image = ImageField()`,
`bio = TextField()`. -/
structure Artist where
  id : Nat
  name : String
  image : String
  bio : String
deriving DecidableEq, Repr

/-- `Album` model from `src/music/models.py`:
`artist = ForeignKey(Artist)`, `name = CharField(max_length=100)`,
`image = ImageField()`, `year_released = PositiveSmallIntegerField()`. -/
structure Album where
  id : Nat
  artist : Nat
  name : String
  image : String
  year_released : Int
deriving DecidableEq, Repr

/-- `Song` model from `src/music/models.py`:
`album = ForeignKey(Album)`, `name = CharField(max_length=100)`,
`original_file = FileField()`, `length = FloatField()`. -/
structure Song where
  id : Nat
  album : Nat
  name : String
  original_file : String
  length : Rat
deriving DecidableEq, Repr

/-- `Publisher` model from `src/podcasts/models.py`:
`name = CharField(max_length=100)`, `url = URLField()`,
`image = ImageField()`, `bio = TextField()`. -/
structure Publisher where
  id : Nat
  name : String
  url : String
  image : String
  bio : String
deriving DecidableEq, Repr

/-- `Episode` model from `src/podcasts/models.py`:
`publisher = ForeignKey(Publisher)`, `name = CharField(max_length=100)`,
`description = TextField()`. -/
structure Episode where
  id : Nat
  publisher : Nat
  name : String
  description : String
deriving DecidableEq, Repr

/-- `Artist.__unicode__` from `src/music/models.py`: returns `self.name`. -/
def Artist.unicode (a : Artist) : String := a.name

/-- `Album.__unicode__` from `src/music/models.py`: returns `self.name`. -/
def Album.unicode (al : Album) : String := al.name

/-- `Song.__unicode__` from `src/music/models.py`: returns `self.name`. -/
def Song.unicode (s : Song) : String := s.name

/-- Modelled from the spec: `Publisher` defines no string-representation
method in `src/podcasts/models.py`, so the framework default
representation (`"<classname> object"`) applies. -/
def Publisher.displayString (_ : Publisher) : String := "Publisher object"

/-- Modelled from the spec: `Episode` defines no string-representation
method in `src/podcasts/models.py`, so the framework default
representation (`"<classname> object"`) applies. -/
def Episode.displayString (_ : Episode) : String := "Episode object"

/-- Modelled from the spec: framework validation of a required
`CharField(max_length=100)` — value must be non-empty (`blank=False`
default) and at most 100 characters. -/
def charFieldClean (s : String) : Bool :=
  !s.isEmpty && s.length ≤ 100

/-- Modelled from the spec: framework validation of a required
`TextField()` / `ImageField()` / `FileField()` — value must be present
(non-empty). -/
def requiredFieldClean (s : String) : Bool :=
  !s.isEmpty

/-- Modelled from the spec: framework validation of a
`PositiveSmallIntegerField()` — a small non-negative integer,
`0 ≤ v ≤ 32767`. -/
def positiveSmallIntegerFieldClean (v : Int) : Bool :=
  0 ≤ v && v ≤ 32767

/-- Structural test that the first list is an initial segment of the
second. -/
def listStartsWith : List Char → List Char → Bool
  | [], _ => true
  | _ :: _, [] => false
  | p :: ps, c :: cs => p == c && listStartsWith ps cs

/-- Modelled from the spec: syntactic URL well-formedness as enforced by
the framework's `URLField` validator — an accepted scheme
(`http`, `https`, `ftp`, `ftps`) followed by `://` and a non-empty
remainder. -/
def isWellFormedURL (s : String) : Bool :=
  (listStartsWith "http://".data s.data && 7 < s.length) ||
  (listStartsWith "https://".data s.data && 8 < s.length) ||
  (listStartsWith "ftp://".data s.data && 6 < s.length) ||
  (listStartsWith "ftps://".data s.data && 7 < s.length)

/-- Field-level validation of an `Artist` record (foreign keys excluded:
`Artist` has none). -/
def artistFieldsClean (a : Artist) : Bool :=
  charFieldClean a.name && requiredFieldClean a.image && requiredFieldClean a.bio

/-- Field-level validation of an `Album` record (its `artist` foreign key
is checked against the database separately). -/
def albumFieldsClean (al : Album) : Bool :=
  charFieldClean al.name && requiredFieldClean al.image &&
    positiveSmallIntegerFieldClean al.year_released

/-- Field-level validation of a `Song` record (its `album` foreign key is
checked against the database separately).  `length` is a plain
`FloatField` and carries no constraint beyond being present, which the
type already guarantees. -/
def songFieldsClean (s : Song) : Bool :=
  charFieldClean s.name && requiredFieldClean s.original_file

/-- Field-level validation of a `Publisher` record. -/
def publisherFieldsClean (p : Publisher) : Bool :=
  charFieldClean p.name && isWellFormedURL p.url &&
    requiredFieldClean p.image && requiredFieldClean p.bio

/-- Field-level validation of an `Episode` record (its `publisher` foreign
key is checked against the database separately). -/
def episodeFieldsClean (e : Episode) : Bool :=
  charFieldClean e.name && requiredFieldClean e.description

/-- Modelled from the spec: the framework-level validation error.  The
repository defines no error type of its own, so this single constructor
is the only way a persistence operation can fail. -/
inductive FrameworkError where
  | validationError
deriving DecidableEq, Repr

/-- The persistent store: one table per record type. -/
structure DB where
  artists : List Artist
  albums : List Album
  songs : List Song
  publishers : List Publisher
  episodes : List Episode
deriving DecidableEq, Repr

/-- The empty store. -/
def DB.empty : DB := ⟨[], [], [], [], []⟩

/-- Modelled from the spec: primary-key assignment on creation — one more
than the largest key in use, hence fresh. -/
def freshId (ids : List Nat) : Nat :=
  ids.foldr (fun i m => max i m) 0 + 1

/-- Create (persist) an `Artist`: validate the fields, assign a fresh
primary key, append the record.  Returns the new store and the assigned
key, or a framework validation error. -/
def DB.createArtist (db : DB) (a : Artist) : Except FrameworkError (DB × Nat) :=
  let a' : Artist := { a with id := freshId (db.artists.map Artist.id) }
  if artistFieldsClean a' then
    .ok ({ db with artists := db.artists ++ [a'] }, a'.id)
  else
    .error .validationError

/-- Create (persist) an `Album`: validate the fields and that `artist`
resolves to an existing `Artist`, assign a fresh primary key, append. -/
def DB.createAlbum (db : DB) (al : Album) : Except FrameworkError (DB × Nat) :=
  let al' : Album := { al with id := freshId (db.albums.map Album.id) }
  if albumFieldsClean al' && db.artists.any (fun a => a.id == al'.artist) then
    .ok ({ db with albums := db.albums ++ [al'] }, al'.id)
  else
    .error .validationError

/-- Create (persist) a `Song`: validate the fields and that `album`
resolves to an existing `Album`, assign a fresh primary key, append. -/
def DB.createSong (db : DB) (s : Song) : Except FrameworkError (DB × Nat) :=
  let s' : Song := { s with id := freshId (db.songs.map Song.id) }
  if songFieldsClean s' && db.albums.any (fun al => al.id == s'.album) then
    .ok ({ db with songs := db.songs ++ [s'] }, s'.id)
  else
    .error .validationError

/-- Create (persist) a `Publisher`: validate the fields, assign a fresh
primary key, append. -/
def DB.createPublisher (db : DB) (p : Publisher) : Except FrameworkError (DB × Nat) :=
  let p' : Publisher := { p with id := freshId (db.publishers.map Publisher.id) }
  if publisherFieldsClean p' then
    .ok ({ db with publishers := db.publishers ++ [p'] }, p'.id)
  else
    .error .validationError

/-- Create (persist) an `Episode`: validate the fields and that
`publisher` resolves to an existing `Publisher`, assign a fresh primary
key, append. -/
def DB.createEpisode (db : DB) (e : Episode) : Except FrameworkError (DB × Nat) :=
  let e' : Episode := { e with id := freshId (db.episodes.map Episode.id) }
  if episodeFieldsClean e' && db.publishers.any (fun p => p.id == e'.publisher) then
    .ok ({ db with episodes := db.episodes ++ [e'] }, e'.id)
  else
    .error .validationError

/-- Update an `Artist`: validate, then replace the stored record with the
same primary key. -/
def DB.updateArtist (db : DB) (a : Artist) : Except FrameworkError DB :=
  if artistFieldsClean a then
    .ok { db with artists := db.artists.map (fun x => if x.id == a.id then a else x) }
  else
    .error .validationError

/-- Update an `Album`: validate (including that `artist` resolves), then
replace the stored record with the same primary key. -/
def DB.updateAlbum (db : DB) (al : Album) : Except FrameworkError DB :=
  if albumFieldsClean al && db.artists.any (fun a => a.id == al.artist) then
    .ok { db with albums := db.albums.map (fun x => if x.id == al.id then al else x) }
  else
    .error .validationError

/-- Update a `Song`: validate (including that `album` resolves), then
replace the stored record with the same primary key. -/
def DB.updateSong (db : DB) (s : Song) : Except FrameworkError DB :=
  if songFieldsClean s && db.albums.any (fun al => al.id == s.album) then
    .ok { db with songs := db.songs.map (fun x => if x.id == s.id then s else x) }
  else
    .error .validationError

/-- Update a `Publisher`: validate, then replace the stored record with
the same primary key. -/
def DB.updatePublisher (db : DB) (p : Publisher) : Except FrameworkError DB :=
  if publisherFieldsClean p then
    .ok { db with publishers := db.publishers.map (fun x => if x.id == p.id then p else x) }
  else
    .error .validationError

/-- Update an `Episode`: validate (including that `publisher` resolves),
then replace the stored record with the same primary key. -/
def DB.updateEpisode (db : DB) (e : Episode) : Except FrameworkError DB :=
  if episodeFieldsClean e && db.publishers.any (fun p => p.id == e.publisher) then
    .ok { db with episodes := db.episodes.map (fun x => if x.id == e.id then e else x) }
  else
    .error .validationError

/-- Modelled from the spec: framework-default cascade deletion.  Deleting
an `Artist` deletes its `Album`s and, transitively, their `Song`s. -/
def DB.deleteArtist (db : DB) (aid : Nat) : DB :=
  let deadAlbums := (db.albums.filter (fun al => al.artist == aid)).map Album.id
  { db with
    artists := db.artists.filter (fun a => a.id != aid),
    albums := db.albums.filter (fun al => al.artist != aid),
    songs := db.songs.filter (fun s => !(deadAlbums.contains s.album)) }

/-- Modelled from the spec: deleting an `Album` cascades to its `Song`s. -/
def DB.deleteAlbum (db : DB) (alid : Nat) : DB :=
  { db with
    albums := db.albums.filter (fun al => al.id != alid),
    songs := db.songs.filter (fun s => s.album != alid) }

/-- Deleting a `Song` removes only that record (no children). -/
def DB.deleteSong (db : DB) (sid : Nat) : DB :=
  { db with songs := db.songs.filter (fun s => s.id != sid) }

/-- Modelled from the spec: deleting a `Publisher` cascades to its
`Episode`s. -/
def DB.deletePublisher (db : DB) (pid : Nat) : DB :=
  { db with
    publishers := db.publishers.filter (fun p => p.id != pid),
    episodes := db.episodes.filter (fun e => e.publisher != pid) }

/-- Deleting an `Episode` removes only that record (no children). -/
def DB.deleteEpisode (db : DB) (eid : Nat) : DB :=
  { db with episodes := db.episodes.filter (fun e => e.id != eid) }

/-- Reload an `Artist` by primary key. -/
def DB.getArtist (db : DB) (i : Nat) : Option Artist :=
  db.artists.find? (fun a => a.id == i)

/-- Reload an `Album` by primary key. -/
def DB.getAlbum (db : DB) (i : Nat) : Option Album :=
  db.albums.find? (fun al => al.id == i)

/-- Reload a `Song` by primary key. -/
def DB.getSong (db : DB) (i : Nat) : Option Song :=
  db.songs.find? (fun s => s.id == i)

/-- Reload a `Publisher` by primary key. -/
def DB.getPublisher (db : DB) (i : Nat) : Option Publisher :=
  db.publishers.find? (fun p => p.id == i)

/-- Reload an `Episode` by primary key. -/
def DB.getEpisode (db : DB) (i : Nat) : Option Episode :=
  db.episodes.find? (fun e => e.id == i)

/-- Referential integrity: every reference field resolves to an existing
parent record. -/
def DB.refIntegrity (db : DB) : Prop :=
  (∀ al ∈ db.albums, ∃ a ∈ db.artists, a.id = al.artist) ∧
  (∀ s ∈ db.songs, ∃ al ∈ db.albums, al.id = s.album) ∧
  (∀ e ∈ db.episodes, ∃ p ∈ db.publishers, p.id = e.publisher)

/-- Well-formedness of a store: every stored record passes its field
validation and every reference resolves. -/
structure DB.wellFormed (db : DB) : Prop where
  artistsClean : ∀ a ∈ db.artists, artistFieldsClean a = true
  albumsClean : ∀ al ∈ db.albums, albumFieldsClean al = true
  songsClean : ∀ s ∈ db.songs, songFieldsClean s = true
  publishersClean : ∀ p ∈ db.publishers, publisherFieldsClean p = true
  episodesClean : ∀ e ∈ db.episodes, episodeFieldsClean e = true
  albumsFK : ∀ al ∈ db.albums, ∃ a ∈ db.artists, a.id = al.artist
  songsFK : ∀ s ∈ db.songs, ∃ al ∈ db.albums, al.id = s.album
  episodesFK : ∀ e ∈ db.episodes, ∃ p ∈ db.publishers, p.id = e.publisher

/-- The stores reachable from the empty store by the persistence
operations: these are exactly the stores whose records have all been
persisted through the framework. -/
inductive Reachable : DB → Prop where
  | empty : Reachable DB.empty
  | createArtist {db db' : DB} {a : Artist} {i : Nat} :
      Reachable db → db.createArtist a = .ok (db', i) → Reachable db'
  | createAlbum {db db' : DB} {al : Album} {i : Nat} :
      Reachable db → db.createAlbum al = .ok (db', i) → Reachable db'
  | createSong {db db' : DB} {s : Song} {i : Nat} :
      Reachable db → db.createSong s = .ok (db', i) → Reachable db'
  | createPublisher {db db' : DB} {p : Publisher} {i : Nat} :
      Reachable db → db.createPublisher p = .ok (db', i) → Reachable db'
  | createEpisode {db db' : DB} {e : Episode} {i : Nat} :
      Reachable db → db.createEpisode e = .ok (db', i) → Reachable db'
  | updateArtist {db db' : DB} {a : Artist} :
      Reachable db → db.updateArtist a = .ok db' → Reachable db'
  | updateAlbum {db db' : DB} {al : Album} :
      Reachable db → db.updateAlbum al = .ok db' → Reachable db'
  | updateSong {db db' : DB} {s : Song} :
      Reachable db → db.updateSong s = .ok db' → Reachable db'
  | updatePublisher {db db' : DB} {p : Publisher} :
      Reachable db → db.updatePublisher p = .ok db' → Reachable db'
  | updateEpisode {db db' : DB} {e : Episode} :
      Reachable db → db.updateEpisode e = .ok db' → Reachable db'
  | deleteArtist {db : DB} (aid : Nat) :
      Reachable db → Reachable (db.deleteArtist aid)
  | deleteAlbum {db : DB} (alid : Nat) :
      Reachable db → Reachable (db.deleteAlbum alid)
  | deleteSong {db : DB} (sid : Nat) :
      Reachable db → Reachable (db.deleteSong sid)
  | deletePublisher {db : DB} (pid : Nat) :
      Reachable db → Reachable (db.deletePublisher pid)
  | deleteEpisode {db : DB} (eid : Nat) :
      Reachable db → Reachable (db.deleteEpisode eid)

/-! ### Concrete sample records and stores used to exercise the claims -/

/-- Sample `Artist` as submitted for creation (`id` is overwritten by the
framework). -/
def wArtist : Artist :=
  { id := 0, name := "Miles Davis", image := "miles.jpg", bio := "Trumpeter." }

/-- Store obtained by creating `wArtist` in the empty store. -/
def wDB1 : DB :=
  { artists := [{ wArtist with id := 1 }], albums := [], songs := [],
    publishers := [], episodes := [] }

/-- Sample `Album` referencing artist 1. -/
def wAlbum : Album :=
  { id := 0, artist := 1, name := "Kind of Blue", image := "kob.jpg",
    year_released := 1959 }

/-- Store obtained by also creating `wAlbum`. -/
def wDB2 : DB :=
  { artists := [{ wArtist with id := 1 }], albums := [{ wAlbum with id := 1 }],
    songs := [], publishers := [], episodes := [] }

/-- Sample `Song` referencing album 1, with a negative `length`: nothing
in the schema constrains the sign of a `FloatField`. -/
def negSong : Song :=
  { id := 0, album := 1, name := "So What", original_file := "sowhat.mp3",
    length := -1 }

/-- Store obtained by also creating `negSong`: a reachable store holding a
song of negative length. -/
def negDB : DB :=
  { artists := [{ wArtist with id := 1 }], albums := [{ wAlbum with id := 1 }],
    songs := [{ negSong with id := 1 }], publishers := [], episodes := [] }

/-- Sample `Publisher` with a well-formed URL. -/
def wPub : Publisher :=
  { id := 0, name := "Acme Audio", url := "http://acme.example",
    image := "acme.png", bio := "Indie podcast network." }

/-- Store obtained by creating `wPub` in the empty store. -/
def pDB1 : DB :=
  { artists := [], albums := [], songs := [],
    publishers := [{ wPub with id := 1 }], episodes := [] }

/-- Sample `Episode` referencing publisher 1. -/
def wEpisode : Episode :=
  { id := 0, publisher := 1, name := "Pilot", description := "First episode." }

/-- Store obtained by also creating `wEpisode`. -/
def pDB2 : DB :=
  { artists := [], albums := [], songs := [],
    publishers := [{ wPub with id := 1 }], episodes := [{ wEpisode with id := 1 }] }

/-- An `Artist` submission with a missing (empty) required `name`. -/
def badArtist : Artist :=
  { id := 0, name := "", image := "x.png", bio := "b" }

/-! ### Generic list lemmas used by the preservation proofs -/

/-- Every member of a list of keys is below `freshId` of that list. -/
theorem mem_lt_freshId (ids : List Nat) : ∀ i ∈ ids, i < freshId ids := by
  intro i hi
  have h : i ≤ ids.foldr (fun i m => max i m) 0 := by
    induction ids with
    | nil => cases hi
    | cons j t ih =>
      rcases List.mem_cons.mp hi with rfl | ht
      · exact le_max_left _ _
      · exact le_trans (ih ht) (le_max_right _ _)
  exact Nat.lt_succ_of_le h

/-- `find?` on `l ++ [x]` returns `x` when nothing in `l` matches and `x`
does. -/
theorem find_append_last {α : Type} (l : List α) (p : α → Bool) (x : α)
    (hl : ∀ y ∈ l, p y = false) (hx : p x = true) :
    (l ++ [x]).find? p = some x := by
  induction l with
  | nil => simp [List.find?, hx]
  | cons a t ih =>
    have ha : p a = false := hl a (List.mem_cons_self a t)
    simp only [List.cons_append, List.find?, ha]
    exact ih (fun y hy => hl y (List.mem_cons_of_mem a hy))

/-! ### Characterisation of successful create operations -/

/-- Unfolding a successful `createArtist`. -/
theorem createArtist_spec {db db' : DB} {a : Artist} {i : Nat}
    (h : db.createArtist a = .ok (db', i)) :
    artistFieldsClean { a with id := freshId (db.artists.map Artist.id) } = true ∧
      db' = { db with
        artists := db.artists ++ [{ a with id := freshId (db.artists.map Artist.id) }] } ∧
      i = freshId (db.artists.map Artist.id) := by
  simp only [DB.createArtist] at h
  split at h
  · rename_i hc
    injection h with h1
    injection h1 with h2 h3
    exact ⟨hc, h2.symm, h3.symm⟩
  · cases h

/-- Unfolding a successful `createAlbum`. -/
theorem createAlbum_spec {db db' : DB} {al : Album} {i : Nat}
    (h : db.createAlbum al = .ok (db', i)) :
    albumFieldsClean { al with id := freshId (db.albums.map Album.id) } = true ∧
      db.artists.any (fun a => a.id == al.artist) = true ∧
      db' = { db with
        albums := db.albums ++ [{ al with id := freshId (db.albums.map Album.id) }] } ∧
      i = freshId (db.albums.map Album.id) := by
  simp only [DB.createAlbum] at h
  split at h
  · rename_i hc
    rw [Bool.and_eq_true] at hc
    injection h with h1
    injection h1 with h2 h3
    exact ⟨hc.1, hc.2, h2.symm, h3.symm⟩
  · cases h

/-- Unfolding a successful `createSong`. -/
theorem createSong_spec {db db' : DB} {s : Song} {i : Nat}
    (h : db.createSong s = .ok (db', i)) :
    songFieldsClean { s with id := freshId (db.songs.map Song.id) } = true ∧
      db.albums.any (fun al => al.id == s.album) = true ∧
      db' = { db with
        songs := db.songs ++ [{ s with id := freshId (db.songs.map Song.id) }] } ∧
      i = freshId (db.songs.map Song.id) := by
  simp only [DB.createSong] at h
  split at h
  · rename_i hc
    rw [Bool.and_eq_true] at hc
    injection h with h1
    injection h1 with h2 h3
    exact ⟨hc.1, hc.2, h2.symm, h3.symm⟩
  · cases h

/-- Unfolding a successful `createPublisher`. -/
theorem createPublisher_spec {db db' : DB} {p : Publisher} {i : Nat}
    (h : db.createPublisher p = .ok (db', i)) :
    publisherFieldsClean { p with id := freshId (db.publishers.map Publisher.id) } = true ∧
      db' = { db with
        publishers := db.publishers ++
          [{ p with id := freshId (db.publishers.map Publisher.id) }] } ∧
      i = freshId (db.publishers.map Publisher.id) := by
  simp only [DB.createPublisher] at h
  split at h
  · rename_i hc
    injection h with h1
    injection h1 with h2 h3
    exact ⟨hc, h2.symm, h3.symm⟩
  · cases h

/-- Unfolding a successful `createEpisode`. -/
theorem createEpisode_spec {db db' : DB} {e : Episode} {i : Nat}
    (h : db.createEpisode e = .ok (db', i)) :
    episodeFieldsClean { e with id := freshId (db.episodes.map Episode.id) } = true ∧
      db.publishers.any (fun p => p.id == e.publisher) = true ∧
      db' = { db with
        episodes := db.episodes ++ [{ e with id := freshId (db.episodes.map Episode.id) }] } ∧
      i = freshId (db.episodes.map Episode.id) := by
  simp only [DB.createEpisode] at h
  split at h
  · rename_i hc
    rw [Bool.and_eq_true] at hc
    injection h with h1
    injection h1 with h2 h3
    exact ⟨hc.1, hc.2, h2.symm, h3.symm⟩
  · cases h

/-! ### Characterisation of successful update operations -/

/-- Unfolding a successful `updateArtist`. -/
theorem updateArtist_spec {db db' : DB} {a : Artist}
    (h : db.updateArtist a = .ok db') :
    artistFieldsClean a = true ∧
      db' = { db with artists := db.artists.map (fun x => if x.id == a.id then a else x) } := by
  simp only [DB.updateArtist] at h
  split at h
  · rename_i hc
    injection h with h1
    exact ⟨hc, h1.symm⟩
  · cases h

/-- Unfolding a successful `updateAlbum`. -/
theorem updateAlbum_spec {db db' : DB} {al : Album}
    (h : db.updateAlbum al = .ok db') :
    albumFieldsClean al = true ∧
      db.artists.any (fun a => a.id == al.artist) = true ∧
      db' = { db with albums := db.albums.map (fun x => if x.id == al.id then al else x) } := by
  simp only [DB.updateAlbum] at h
  split at h
  · rename_i hc
    rw [Bool.and_eq_true] at hc
    injection h with h1
    exact ⟨hc.1, hc.2, h1.symm⟩
  · cases h

/-- Unfolding a successful `updateSong`. -/
theorem updateSong_spec {db db' : DB} {s : Song}
    (h : db.updateSong s = .ok db') :
    songFieldsClean s = true ∧
      db.albums.any (fun al => al.id == s.album) = true ∧
      db' = { db with songs := db.songs.map (fun x => if x.id == s.id then s else x) } := by
  simp only [DB.updateSong] at h
  split at h
  · rename_i hc
    rw [Bool.and_eq_true] at hc
    injection h with h1
    exact ⟨hc.1, hc.2, h1.symm⟩
  · cases h

/-- Unfolding a successful `updatePublisher`. -/
theorem updatePublisher_spec {db db' : DB} {p : Publisher}
    (h : db.updatePublisher p = .ok db') :
    publisherFieldsClean p = true ∧
      db' = { db with
        publishers := db.publishers.map (fun x => if x.id == p.id then p else x) } := by
  simp only [DB.updatePublisher] at h
  split at h
  · rename_i hc
    injection h with h1
    exact ⟨hc, h1.symm⟩
  · cases h

/-- Unfolding a successful `updateEpisode`. -/
theorem updateEpisode_spec {db db' : DB} {e : Episode}
    (h : db.updateEpisode e = .ok db') :
    episodeFieldsClean e = true ∧
      db.publishers.any (fun p => p.id == e.publisher) = true ∧
      db' = { db with episodes := db.episodes.map (fun x => if x.id == e.id then e else x) } := by
  simp only [DB.updateEpisode] at h
  split at h
  · rename_i hc
    rw [Bool.and_eq_true] at hc
    injection h with h1
    exact ⟨hc.1, hc.2, h1.symm⟩
  · cases h

/-! ### Well-formedness preservation -/

/-- The replacement map used by updates never changes a record's primary
key (stated for albums; the other types are proved inline the same way). -/
theorem update_map_id_album (al : Album) (x : Album) :
    ((fun x => if x.id == al.id then al else x) x).id = x.id := by
  by_cases h : x.id = al.id
  · simp [h]
  · simp [h]

/-- `createArtist` preserves well-formedness. -/
theorem createArtist_wf {db db' : DB} {a : Artist} {i : Nat}
    (hwf : db.wellFormed) (h : db.createArtist a = .ok (db', i)) :
    db'.wellFormed := by
  obtain ⟨hc, rfl, -⟩ := createArtist_spec h
  refine ⟨?_, hwf.albumsClean, hwf.songsClean, hwf.publishersClean, hwf.episodesClean,
    ?_, hwf.songsFK, hwf.episodesFK⟩
  · intro x hx
    rcases List.mem_append.mp hx with hx | hx
    · exact hwf.artistsClean x hx
    · rw [List.mem_singleton.mp hx]
      exact hc
  · intro al hal
    obtain ⟨x, hx, hid⟩ := hwf.albumsFK al hal
    exact ⟨x, List.mem_append_left _ hx, hid⟩

/-- `createAlbum` preserves well-formedness. -/
theorem createAlbum_wf {db db' : DB} {al : Album} {i : Nat}
    (hwf : db.wellFormed) (h : db.createAlbum al = .ok (db', i)) :
    db'.wellFormed := by
  obtain ⟨hc, hfk, rfl, -⟩ := createAlbum_spec h
  refine ⟨hwf.artistsClean, ?_, hwf.songsClean, hwf.publishersClean, hwf.episodesClean,
    ?_, ?_, hwf.episodesFK⟩
  · intro x hx
    rcases List.mem_append.mp hx with hx | hx
    · exact hwf.albumsClean x hx
    · rw [List.mem_singleton.mp hx]
      exact hc
  · intro x hx
    rcases List.mem_append.mp hx with hx | hx
    · exact hwf.albumsFK x hx
    · rw [List.mem_singleton.mp hx]
      obtain ⟨a, ha, hid⟩ := List.any_eq_true.mp hfk
      exact ⟨a, ha, by simpa using hid⟩
  · intro s hs
    obtain ⟨x, hx, hid⟩ := hwf.songsFK s hs
    exact ⟨x, List.mem_append_left _ hx, hid⟩

/-- `createSong` preserves well-formedness. -/
theorem createSong_wf {db db' : DB} {s : Song} {i : Nat}
    (hwf : db.wellFormed) (h : db.createSong s = .ok (db', i)) :
    db'.wellFormed := by
  obtain ⟨hc, hfk, rfl, -⟩ := createSong_spec h
  refine ⟨hwf.artistsClean, hwf.albumsClean, ?_, hwf.publishersClean, hwf.episodesClean,
    hwf.albumsFK, ?_, hwf.episodesFK⟩
  · intro x hx
    rcases List.mem_append.mp hx with hx | hx
    · exact hwf.songsClean x hx
    · rw [List.mem_singleton.mp hx]
      exact hc
  · intro x hx
    rcases List.mem_append.mp hx with hx | hx
    · exact hwf.songsFK x hx
    · rw [List.mem_singleton.mp hx]
      obtain ⟨al, hal, hid⟩ := List.any_eq_true.mp hfk
      exact ⟨al, hal, by simpa using hid⟩

/-- `createPublisher` preserves well-formedness. -/
theorem createPublisher_wf {db db' : DB} {p : Publisher} {i : Nat}
    (hwf : db.wellFormed) (h : db.createPublisher p = .ok (db', i)) :
    db'.wellFormed := by
  obtain ⟨hc, rfl, -⟩ := createPublisher_spec h
  refine ⟨hwf.artistsClean, hwf.albumsClean, hwf.songsClean, ?_, hwf.episodesClean,
    hwf.albumsFK, hwf.songsFK, ?_⟩
  · intro x hx
    rcases List.mem_append.mp hx with hx | hx
    · exact hwf.publishersClean x hx
    · rw [List.mem_singleton.mp hx]
      exact hc
  · intro e he
    obtain ⟨x, hx, hid⟩ := hwf.episodesFK e he
    exact ⟨x, List.mem_append_left _ hx, hid⟩

/-- `createEpisode` preserves well-formedness. -/
theorem createEpisode_wf {db db' : DB} {e : Episode} {i : Nat}
    (hwf : db.wellFormed) (h : db.createEpisode e = .ok (db', i)) :
    db'.wellFormed := by
  obtain ⟨hc, hfk, rfl, -⟩ := createEpisode_spec h
  refine ⟨hwf.artistsClean, hwf.albumsClean, hwf.songsClean, hwf.publishersClean, ?_,
    hwf.albumsFK, hwf.songsFK, ?_⟩
  · intro x hx
    rcases List.mem_append.mp hx with hx | hx
    · exact hwf.episodesClean x hx
    · rw [List.mem_singleton.mp hx]
      exact hc
  · intro x hx
    rcases List.mem_append.mp hx with hx | hx
    · exact hwf.episodesFK x hx
    · rw [List.mem_singleton.mp hx]
      obtain ⟨p, hp, hid⟩ := List.any_eq_true.mp hfk
      exact ⟨p, hp, by simpa using hid⟩

/-- `updateArtist` preserves well-formedness. -/
theorem updateArtist_wf {db db' : DB} {a : Artist}
    (hwf : db.wellFormed) (h : db.updateArtist a = .ok db') :
    db'.wellFormed := by
  obtain ⟨hc, rfl⟩ := updateArtist_spec h
  refine ⟨?_, hwf.albumsClean, hwf.songsClean, hwf.publishersClean, hwf.episodesClean,
    ?_, hwf.songsFK, hwf.episodesFK⟩
  · intro x hx
    obtain ⟨y, hy, hfy⟩ := List.mem_map.mp hx
    by_cases hid : y.id = a.id
    · simp only [hid, beq_self_eq_true, if_true] at hfy
      rw [← hfy]; exact hc
    · simp only [beq_eq_false_iff_ne.mpr hid, if_false] at hfy
      rw [← hfy]; exact hwf.artistsClean y hy
  · intro al hal
    obtain ⟨a0, ha0, hid0⟩ := hwf.albumsFK al hal
    refine ⟨(fun x => if x.id == a.id then a else x) a0,
      List.mem_map_of_mem _ ha0, ?_⟩
    by_cases hid : a0.id = a.id
    · simp only [hid, beq_self_eq_true, if_true]
      rw [← hid]; exact hid0
    · simp only [beq_eq_false_iff_ne.mpr hid, if_false]
      exact hid0

/-- `updateAlbum` preserves well-formedness. -/
theorem updateAlbum_wf {db db' : DB} {al : Album}
    (hwf : db.wellFormed) (h : db.updateAlbum al = .ok db') :
    db'.wellFormed := by
  obtain ⟨hc, hfk, rfl⟩ := updateAlbum_spec h
  refine ⟨hwf.artistsClean, ?_, hwf.songsClean, hwf.publishersClean, hwf.episodesClean,
    ?_, ?_, hwf.episodesFK⟩
  · intro x hx
    obtain ⟨y, hy, hfy⟩ := List.mem_map.mp hx
    by_cases hid : y.id = al.id
    · simp only [hid, beq_self_eq_true, if_true] at hfy
      rw [← hfy]; exact hc
    · simp only [beq_eq_false_iff_ne.mpr hid, if_false] at hfy
      rw [← hfy]; exact hwf.albumsClean y hy
  · intro x hx
    obtain ⟨y, hy, hfy⟩ := List.mem_map.mp hx
    by_cases hid : y.id = al.id
    · simp only [hid, beq_self_eq_true, if_true] at hfy
      obtain ⟨a0, ha0, hid0⟩ := List.any_eq_true.mp hfk
      exact ⟨a0, ha0, by rw [← hfy]; simpa using hid0⟩
    · simp only [beq_eq_false_iff_ne.mpr hid, if_false] at hfy
      rw [← hfy]; exact hwf.albumsFK y hy
  · intro s hs
    obtain ⟨al0, hal0, hid0⟩ := hwf.songsFK s hs
    refine ⟨(fun x => if x.id == al.id then al else x) al0,
      List.mem_map_of_mem _ hal0, ?_⟩
    by_cases hid : al0.id = al.id
    · simp only [hid, beq_self_eq_true, if_true]
      rw [← hid]; exact hid0
    · simp only [beq_eq_false_iff_ne.mpr hid, if_false]
      exact hid0

/-- `updateSong` preserves well-formedness. -/
theorem updateSong_wf {db db' : DB} {s : Song}
    (hwf : db.wellFormed) (h : db.updateSong s = .ok db') :
    db'.wellFormed := by
  obtain ⟨hc, hfk, rfl⟩ := updateSong_spec h
  refine ⟨hwf.artistsClean, hwf.albumsClean, ?_, hwf.publishersClean, hwf.episodesClean,
    hwf.albumsFK, ?_, hwf.episodesFK⟩
  · intro x hx
    obtain ⟨y, hy, hfy⟩ := List.mem_map.mp hx
    by_cases hid : y.id = s.id
    · simp only [hid, beq_self_eq_true, if_true] at hfy
      rw [← hfy]; exact hc
    · simp only [beq_eq_false_iff_ne.mpr hid, if_false] at hfy
      rw [← hfy]; exact hwf.songsClean y hy
  · intro x hx
    obtain ⟨y, hy, hfy⟩ := List.mem_map.mp hx
    by_cases hid : y.id = s.id
    · simp only [hid, beq_self_eq_true, if_true] at hfy
      obtain ⟨al0, hal0, hid0⟩ := List.any_eq_true.mp hfk
      exact ⟨al0, hal0, by rw [← hfy]; simpa using hid0⟩
    · simp only [beq_eq_false_iff_ne.mpr hid, if_false] at hfy
      rw [← hfy]; exact hwf.songsFK y hy

/-- `updatePublisher` preserves well-formedness. -/
theorem updatePublisher_wf {db db' : DB} {p : Publisher}
    (hwf : db.wellFormed) (h : db.updatePublisher p = .ok db') :
    db'.wellFormed := by
  obtain ⟨hc, rfl⟩ := updatePublisher_spec h
  refine ⟨hwf.artistsClean, hwf.albumsClean, hwf.songsClean, ?_, hwf.episodesClean,
    hwf.albumsFK, hwf.songsFK, ?_⟩
  · intro x hx
    obtain ⟨y, hy, hfy⟩ := List.mem_map.mp hx
    by_cases hid : y.id = p.id
    · simp only [hid, beq_self_eq_true, if_true] at hfy
      rw [← hfy]; exact hc
    · simp only [beq_eq_false_iff_ne.mpr hid, if_false] at hfy
      rw [← hfy]; exact hwf.publishersClean y hy
  · intro e he
    obtain ⟨p0, hp0, hid0⟩ := hwf.episodesFK e he
    refine ⟨(fun x => if x.id == p.id then p else x) p0,
      List.mem_map_of_mem _ hp0, ?_⟩
    by_cases hid : p0.id = p.id
    · simp only [hid, beq_self_eq_true, if_true]
      rw [← hid]; exact hid0
    · simp only [beq_eq_false_iff_ne.mpr hid, if_false]
      exact hid0

/-- `updateEpisode` preserves well-formedness. -/
theorem updateEpisode_wf {db db' : DB} {e : Episode}
    (hwf : db.wellFormed) (h : db.updateEpisode e = .ok db') :
    db'.wellFormed := by
  obtain ⟨hc, hfk, rfl⟩ := updateEpisode_spec h
  refine ⟨hwf.artistsClean, hwf.albumsClean, hwf.songsClean, hwf.publishersClean, ?_,
    hwf.albumsFK, hwf.songsFK, ?_⟩
  · intro x hx
    obtain ⟨y, hy, hfy⟩ := List.mem_map.mp hx
    by_cases hid : y.id = e.id
    · simp only [hid, beq_self_eq_true, if_true] at hfy
      rw [← hfy]; exact hc
    · simp only [beq_eq_false_iff_ne.mpr hid, if_false] at hfy
      rw [← hfy]; exact hwf.episodesClean y hy
  · intro x hx
    obtain ⟨y, hy, hfy⟩ := List.mem_map.mp hx
    by_cases hid : y.id = e.id
    · simp only [hid, beq_self_eq_true, if_true] at hfy
      obtain ⟨p0, hp0, hid0⟩ := List.any_eq_true.mp hfk
      exact ⟨p0, hp0, by rw [← hfy]; simpa using hid0⟩
    · simp only [beq_eq_false_iff_ne.mpr hid, if_false] at hfy
      rw [← hfy]; exact hwf.episodesFK y hy

/-- `deleteArtist` preserves well-formedness: the artist's albums are
removed with it, and the songs of those albums are removed in turn. -/
theorem deleteArtist_wf {db : DB} (aid : Nat) (hwf : db.wellFormed) :
    (db.deleteArtist aid).wellFormed := by
  simp only [DB.deleteArtist]
  refine ⟨?_, ?_, ?_, hwf.publishersClean, hwf.episodesClean, ?_, ?_, hwf.episodesFK⟩
  · intro x hx
    exact hwf.artistsClean x (List.mem_filter.mp hx).1
  · intro x hx
    exact hwf.albumsClean x (List.mem_filter.mp hx).1
  · intro x hx
    exact hwf.songsClean x (List.mem_filter.mp hx).1
  · intro al hal
    obtain ⟨hal0, hkeep⟩ := List.mem_filter.mp hal
    obtain ⟨a0, ha0, hid0⟩ := hwf.albumsFK al hal0
    refine ⟨a0, List.mem_filter.mpr ⟨ha0, ?_⟩, hid0⟩
    rw [bne_iff_ne]
    rw [bne_iff_ne] at hkeep
    intro hcon
    exact hkeep (hid0 ▸ hcon)
  · intro s hs
    obtain ⟨hs0, hkeep⟩ := List.mem_filter.mp hs
    obtain ⟨al0, hal0, hid0⟩ := hwf.songsFK s hs0
    refine ⟨al0, List.mem_filter.mpr ⟨hal0, ?_⟩, hid0⟩
    rw [bne_iff_ne]
    intro hart
    rw [Bool.not_eq_eq_eq_not, Bool.not_true] at hkeep
    have hdead : al0.id ∈ (db.albums.filter (fun al => al.artist == aid)).map Album.id :=
      List.mem_map_of_mem _ (List.mem_filter.mpr ⟨hal0, by simpa using hart⟩)
    rw [hid0] at hdead
    have hcontra : (List.map Album.id
        (List.filter (fun al => al.artist == aid) db.albums)).contains s.album = true :=
      List.elem_eq_true_of_mem hdead
    rw [hcontra] at hkeep
    cases hkeep

/-- `deleteAlbum` preserves well-formedness: the album's songs are
removed with it. -/
theorem deleteAlbum_wf {db : DB} (alid : Nat) (hwf : db.wellFormed) :
    (db.deleteAlbum alid).wellFormed := by
  simp only [DB.deleteAlbum]
  refine ⟨hwf.artistsClean, ?_, ?_, hwf.publishersClean, hwf.episodesClean,
    ?_, ?_, hwf.episodesFK⟩
  · intro x hx
    exact hwf.albumsClean x (List.mem_filter.mp hx).1
  · intro x hx
    exact hwf.songsClean x (List.mem_filter.mp hx).1
  · intro al hal
    obtain ⟨hal0, -⟩ := List.mem_filter.mp hal
    exact hwf.albumsFK al hal0
  · intro s hs
    obtain ⟨hs0, hkeep⟩ := List.mem_filter.mp hs
    obtain ⟨al0, hal0, hid0⟩ := hwf.songsFK s hs0
    refine ⟨al0, List.mem_filter.mpr ⟨hal0, ?_⟩, hid0⟩
    rw [bne_iff_ne]
    rw [bne_iff_ne] at hkeep
    intro hcon
    exact hkeep (hid0 ▸ hcon)

/-- `deleteSong` preserves well-formedness (no children to cascade to). -/
theorem deleteSong_wf {db : DB} (sid : Nat) (hwf : db.wellFormed) :
    (db.deleteSong sid).wellFormed := by
  simp only [DB.deleteSong]
  refine ⟨hwf.artistsClean, hwf.albumsClean, ?_, hwf.publishersClean, hwf.episodesClean,
    hwf.albumsFK, ?_, hwf.episodesFK⟩
  · intro x hx
    exact hwf.songsClean x (List.mem_filter.mp hx).1
  · intro s hs
    exact hwf.songsFK s (List.mem_filter.mp hs).1

/-- `deletePublisher` preserves well-formedness: the publisher's episodes
are removed with it. -/
theorem deletePublisher_wf {db : DB} (pid : Nat) (hwf : db.wellFormed) :
    (db.deletePublisher pid).wellFormed := by
  simp only [DB.deletePublisher]
  refine ⟨hwf.artistsClean, hwf.albumsClean, hwf.songsClean, ?_, ?_,
    hwf.albumsFK, hwf.songsFK, ?_⟩
  · intro x hx
    exact hwf.publishersClean x (List.mem_filter.mp hx).1
  · intro x hx
    exact hwf.episodesClean x (List.mem_filter.mp hx).1
  · intro e he
    obtain ⟨he0, hkeep⟩ := List.mem_filter.mp he
    obtain ⟨p0, hp0, hid0⟩ := hwf.episodesFK e he0
    refine ⟨p0, List.mem_filter.mpr ⟨hp0, ?_⟩, hid0⟩
    rw [bne_iff_ne]
    rw [bne_iff_ne] at hkeep
    intro hcon
    exact hkeep (hid0 ▸ hcon)

/-- `deleteEpisode` preserves well-formedness (no children to cascade
to). -/
theorem deleteEpisode_wf {db : DB} (eid : Nat) (hwf : db.wellFormed) :
    (db.deleteEpisode eid).wellFormed := by
  simp only [DB.deleteEpisode]
  refine ⟨hwf.artistsClean, hwf.albumsClean, hwf.songsClean, hwf.publishersClean, ?_,
    hwf.albumsFK, hwf.songsFK, ?_⟩
  · intro x hx
    exact hwf.episodesClean x (List.mem_filter.mp hx).1
  · intro e he
    exact hwf.episodesFK e (List.mem_filter.mp he).1

/-- The empty store is well-formed. -/
theorem empty_wf : DB.empty.wellFormed := by
  refine ⟨?_, ?_, ?_, ?_, ?_, ?_, ?_, ?_⟩ <;> intro x hx <;> cases hx

/-- Every reachable store — i.e. every store whose content was persisted
through the framework operations — is well-formed. -/
theorem reachable_wellFormed {db : DB} (h : Reachable db) : db.wellFormed := by
  induction h with
  | empty => exact empty_wf
  | createArtist _ h ih => exact createArtist_wf ih h
  | createAlbum _ h ih => exact createAlbum_wf ih h
  | createSong _ h ih => exact createSong_wf ih h
  | createPublisher _ h ih => exact createPublisher_wf ih h
  | createEpisode _ h ih => exact createEpisode_wf ih h
  | updateArtist _ h ih => exact updateArtist_wf ih h
  | updateAlbum _ h ih => exact updateAlbum_wf ih h
  | updateSong _ h ih => exact updateSong_wf ih h
  | updatePublisher _ h ih => exact updatePublisher_wf ih h
  | updateEpisode _ h ih => exact updateEpisode_wf ih h
  | deleteArtist aid _ ih => exact deleteArtist_wf aid ih
  | deleteAlbum alid _ ih => exact deleteAlbum_wf alid ih
  | deleteSong sid _ ih => exact deleteSong_wf sid ih
  | deletePublisher pid _ ih => exact deletePublisher_wf pid ih
  | deleteEpisode eid _ ih => exact deleteEpisode_wf eid ih

/-! ### Round-trip lemmas: create then reload by the assigned key -/

/-- Reloading a just-created `Artist` by its assigned key returns the
persisted record. -/
theorem createArtist_roundTrip {db db' : DB} {a : Artist} {i : Nat}
    (h : db.createArtist a = .ok (db', i)) :
    db'.getArtist i = some { a with id := i } := by
  obtain ⟨-, rfl, rfl⟩ := createArtist_spec h
  simp only [DB.getArtist]
  apply find_append_last
  · intro y hy
    have hlt := mem_lt_freshId (db.artists.map Artist.id) y.id (List.mem_map_of_mem _ hy)
    exact beq_eq_false_iff_ne.mpr (Nat.ne_of_lt hlt)
  · exact beq_self_eq_true _

/-- Reloading a just-created `Album` by its assigned key returns the
persisted record. -/
theorem createAlbum_roundTrip {db db' : DB} {al : Album} {i : Nat}
    (h : db.createAlbum al = .ok (db', i)) :
    db'.getAlbum i = some { al with id := i } := by
  obtain ⟨-, -, rfl, rfl⟩ := createAlbum_spec h
  simp only [DB.getAlbum]
  apply find_append_last
  · intro y hy
    have hlt := mem_lt_freshId (db.albums.map Album.id) y.id (List.mem_map_of_mem _ hy)
    exact beq_eq_false_iff_ne.mpr (Nat.ne_of_lt hlt)
  · exact beq_self_eq_true _

/-- Reloading a just-created `Song` by its assigned key returns the
persisted record. -/
theorem createSong_roundTrip {db db' : DB} {s : Song} {i : Nat}
    (h : db.createSong s = .ok (db', i)) :
    db'.getSong i = some { s with id := i } := by
  obtain ⟨-, -, rfl, rfl⟩ := createSong_spec h
  simp only [DB.getSong]
  apply find_append_last
  · intro y hy
    have hlt := mem_lt_freshId (db.songs.map Song.id) y.id (List.mem_map_of_mem _ hy)
    exact beq_eq_false_iff_ne.mpr (Nat.ne_of_lt hlt)
  · exact beq_self_eq_true _

/-- Reloading a just-created `Publisher` by its assigned key returns the
persisted record. -/
theorem createPublisher_roundTrip {db db' : DB} {p : Publisher} {i : Nat}
    (h : db.createPublisher p = .ok (db', i)) :
    db'.getPublisher i = some { p with id := i } := by
  obtain ⟨-, rfl, rfl⟩ := createPublisher_spec h
  simp only [DB.getPublisher]
  apply find_append_last
  · intro y hy
    have hlt := mem_lt_freshId (db.publishers.map Publisher.id) y.id (List.mem_map_of_mem _ hy)
    exact beq_eq_false_iff_ne.mpr (Nat.ne_of_lt hlt)
  · exact beq_self_eq_true _

/-- Reloading a just-created `Episode` by its assigned key returns the
persisted record. -/
theorem createEpisode_roundTrip {db db' : DB} {e : Episode} {i : Nat}
    (h : db.createEpisode e = .ok (db', i)) :
    db'.getEpisode i = some { e with id := i } := by
  obtain ⟨-, -, rfl, rfl⟩ := createEpisode_spec h
  simp only [DB.getEpisode]
  apply find_append_last
  · intro y hy
    have hlt := mem_lt_freshId (db.episodes.map Episode.id) y.id (List.mem_map_of_mem _ hy)
    exact beq_eq_false_iff_ne.mpr (Nat.ne_of_lt hlt)
  · exact beq_self_eq_true _

/-! ### Unpacking field validation -/

/-- A clean `CharField` value is non-empty. -/
theorem charFieldClean_ne_empty {s : String} (h : charFieldClean s = true) :
    s ≠ "" := by
  intro hcon
  rw [hcon] at h
  exact absurd h (by decide)

/-- A clean `CharField` value has at most 100 characters. -/
theorem charFieldClean_length {s : String} (h : charFieldClean s = true) :
    s.length ≤ 100 := by
  simp only [charFieldClean, Bool.and_eq_true, decide_eq_true_eq] at h
  exact h.2

/-- A field-clean `Artist` has a clean `name`. -/
theorem artistClean_name {a : Artist} (h : artistFieldsClean a = true) :
    charFieldClean a.name = true := by
  simp only [artistFieldsClean, Bool.and_eq_true] at h
  exact h.1.1

/-- A field-clean `Album` has a clean `name`. -/
theorem albumClean_name {al : Album} (h : albumFieldsClean al = true) :
    charFieldClean al.name = true := by
  simp only [albumFieldsClean, Bool.and_eq_true] at h
  exact h.1.1

/-- A field-clean `Album` has `0 ≤ year_released`. -/
theorem albumClean_year {al : Album} (h : albumFieldsClean al = true) :
    0 ≤ al.year_released := by
  simp only [albumFieldsClean, positiveSmallIntegerFieldClean, Bool.and_eq_true,
    decide_eq_true_eq] at h
  exact h.2.1

/-- A field-clean `Song` has a clean `name`. -/
theorem songClean_name {s : Song} (h : songFieldsClean s = true) :
    charFieldClean s.name = true := by
  simp only [songFieldsClean, Bool.and_eq_true] at h
  exact h.1

/-- A field-clean `Publisher` has a clean `name`. -/
theorem publisherClean_name {p : Publisher} (h : publisherFieldsClean p = true) :
    charFieldClean p.name = true := by
  simp only [publisherFieldsClean, Bool.and_eq_true] at h
  exact h.1.1.1

/-- A field-clean `Publisher` has a well-formed `url`. -/
theorem publisherClean_url {p : Publisher} (h : publisherFieldsClean p = true) :
    isWellFormedURL p.url = true := by
  simp only [publisherFieldsClean, Bool.and_eq_true] at h
  exact h.1.1.2

/-- A field-clean `Episode` has a clean `name`. -/
theorem episodeClean_name {e : Episode} (h : episodeFieldsClean e = true) :
    charFieldClean e.name = true := by
  simp only [episodeFieldsClean, Bool.and_eq_true] at h
  exact h.1

/-- Field validation of an `Artist` ignores the primary key. -/
theorem artistFieldsClean_id (a : Artist) (n : Nat) :
    artistFieldsClean { a with id := n } = artistFieldsClean a := rfl

/-- Field validation of an `Album` ignores the primary key. -/
theorem albumFieldsClean_id (al : Album) (n : Nat) :
    albumFieldsClean { al with id := n } = albumFieldsClean al := rfl

/-- Field validation of a `Song` ignores the primary key. -/
theorem songFieldsClean_id (s : Song) (n : Nat) :
    songFieldsClean { s with id := n } = songFieldsClean s := rfl

/-- Field validation of a `Publisher` ignores the primary key. -/
theorem publisherFieldsClean_id (p : Publisher) (n : Nat) :
    publisherFieldsClean { p with id := n } = publisherFieldsClean p := rfl

/-- Field validation of an `Episode` ignores the primary key. -/
theorem episodeFieldsClean_id (e : Episode) (n : Nat) :
    episodeFieldsClean { e with id := n } = episodeFieldsClean e := rfl

/-! ### The claims -/

/-- C1: in every store reachable through the persistence operations,
every reference field resolves to an existing parent record — every
Album's `artist` to a stored Artist, every Song's `album` to a stored
Album, and every Episode's `publisher` to a stored Publisher. -/
theorem C1_persisted_references_resolve {db : DB} (h : Reachable db) :
    db.refIntegrity :=
  ⟨(reachable_wellFormed h).albumsFK, (reachable_wellFormed h).songsFK,
    (reachable_wellFormed h).episodesFK⟩

/-- C1 witness: referential integrity of the concrete store obtained by
creating an artist and then an album referencing it. -/
theorem C1_witness : wDB2.refIntegrity :=
  C1_persisted_references_resolve
    (Reachable.createAlbum
      (Reachable.createArtist Reachable.empty
        (by rfl : DB.empty.createArtist wArtist = .ok (wDB1, 1)))
      (by rfl : wDB1.createAlbum wAlbum = .ok (wDB2, 1)))

/-- C2: for each of the five record types, persisting a record and then
reloading it by the assigned primary key yields the persisted record
field for field (every submitted field is preserved; the primary key is
the one the framework assigned). -/
theorem C2_roundTrip :
    (∀ (db db' : DB) (a : Artist) (i : Nat), db.createArtist a = .ok (db', i) →
      db'.getArtist i = some { a with id := i }) ∧
    (∀ (db db' : DB) (al : Album) (i : Nat), db.createAlbum al = .ok (db', i) →
      db'.getAlbum i = some { al with id := i }) ∧
    (∀ (db db' : DB) (s : Song) (i : Nat), db.createSong s = .ok (db', i) →
      db'.getSong i = some { s with id := i }) ∧
    (∀ (db db' : DB) (p : Publisher) (i : Nat), db.createPublisher p = .ok (db', i) →
      db'.getPublisher i = some { p with id := i }) ∧
    (∀ (db db' : DB) (e : Episode) (i : Nat), db.createEpisode e = .ok (db', i) →
      db'.getEpisode i = some { e with id := i }) :=
  ⟨fun _ _ _ _ h => createArtist_roundTrip h,
   fun _ _ _ _ h => createAlbum_roundTrip h,
   fun _ _ _ _ h => createSong_roundTrip h,
   fun _ _ _ _ h => createPublisher_roundTrip h,
   fun _ _ _ _ h => createEpisode_roundTrip h⟩

/-- C2 witness: creating `wArtist` in the empty store and reloading key 1
returns the persisted record. -/
theorem C2_witness : wDB1.getArtist 1 = some { wArtist with id := 1 } :=
  C2_roundTrip.1 DB.empty wDB1 wArtist 1
    (by rfl : DB.empty.createArtist wArtist = .ok (wDB1, 1))

/-- C3: in every store reachable through the persistence operations —
so after any sequence of create and update operations — every Album's
`year_released` is non-negative. -/
theorem C3_year_released_nonneg {db : DB} (h : Reachable db) :
    ∀ al ∈ db.albums, 0 ≤ al.year_released :=
  fun al hal => albumClean_year ((reachable_wellFormed h).albumsClean al hal)

/-- C3 witness: the persisted copy of `wAlbum` has a non-negative
`year_released`. -/
theorem C3_witness : 0 ≤ ({ wAlbum with id := 1 } : Album).year_released :=
  C3_year_released_nonneg
    (Reachable.createAlbum
      (Reachable.createArtist Reachable.empty
        (by rfl : DB.empty.createArtist wArtist = .ok (wDB1, 1)))
      (by rfl : wDB1.createAlbum wAlbum = .ok (wDB2, 1)))
    { wAlbum with id := 1 } (by decide)

/-- C4 counterexample: the claim "every persisted Song has `length ≥ 0`"
is false — `negDB` is reachable (artist, album, then a song created with
`length = -1`, all accepted by validation) and stores a song of negative
length. -/
theorem C4_counterexample :
    Reachable negDB ∧ { negSong with id := 1 } ∈ negDB.songs ∧
      ¬ (0 ≤ ({ negSong with id := 1 } : Song).length) :=
  ⟨Reachable.createSong
      (Reachable.createAlbum
        (Reachable.createArtist Reachable.empty
          (by rfl : DB.empty.createArtist wArtist = .ok (wDB1, 1)))
        (by rfl : wDB1.createAlbum wAlbum = .ok (wDB2, 1)))
      (by rfl : wDB2.createSong negSong = .ok (negDB, 1)),
    by decide, by decide⟩

/-- C4 (amended): the Song `length` field carries no sign constraint —
field validation of a Song is independent of `length` (the
`FloatField` is merely required, which the representation guarantees),
so persisted lengths may be negative. -/
theorem C4_amended_length_unconstrained :
    ∀ (s : Song) (q : Rat), songFieldsClean { s with length := q } = songFieldsClean s :=
  fun _ _ => rfl

/-- C5: in every store reachable through the persistence operations,
every Publisher's `url` is a syntactically well-formed URL. -/
theorem C5_publisher_urls_wellFormed {db : DB} (h : Reachable db) :
    ∀ p ∈ db.publishers, isWellFormedURL p.url = true :=
  fun p hp => publisherClean_url ((reachable_wellFormed h).publishersClean p hp)

/-- C5 witness: the persisted copy of `wPub` has a well-formed URL. -/
theorem C5_witness : isWellFormedURL ({ wPub with id := 1 } : Publisher).url = true :=
  C5_publisher_urls_wellFormed
    (Reachable.createPublisher Reachable.empty
      (by rfl : DB.empty.createPublisher wPub = .ok (pDB1, 1)))
    { wPub with id := 1 } (by decide)

/-- C6 counterexample: the claim "every one of the five record types has
a string representation returning the record's name" is false —
`Publisher` (and `Episode`) define none, so the framework default
applies, which differs from the concrete record's name. -/
theorem C6_counterexample :
    Publisher.displayString { wPub with id := 1 } ≠
      ({ wPub with id := 1 } : Publisher).name := by decide

/-- C6 (amended): the three music record types (Artist, Album, Song)
define a string representation returning the record's `name`; Publisher
and Episode define none and fall back to the framework default object
representation, which is a fixed string rather than the name. -/
theorem C6_amended_string_representations :
    (∀ a : Artist, a.unicode = a.name) ∧
    (∀ al : Album, al.unicode = al.name) ∧
    (∀ s : Song, s.unicode = s.name) ∧
    (∀ p : Publisher, p.displayString = "Publisher object") ∧
    (∀ e : Episode, e.displayString = "Episode object") :=
  ⟨fun _ => rfl, fun _ => rfl, fun _ => rfl, fun _ => rfl, fun _ => rfl⟩

/-- C7: persisting a record that violates a field-level constraint fails
with the framework validation error and produces no new store state (the
operation returns no store), and the framework error type admits no
constructor other than the validation error — there is no custom
in-repository error taxonomy. -/
theorem C7_invalid_persist_rejected :
    (∀ (db : DB) (a : Artist), artistFieldsClean a = false →
      db.createArtist a = .error .validationError) ∧
    (∀ (db : DB) (al : Album), albumFieldsClean al = false →
      db.createAlbum al = .error .validationError) ∧
    (∀ (db : DB) (s : Song), songFieldsClean s = false →
      db.createSong s = .error .validationError) ∧
    (∀ (db : DB) (p : Publisher), publisherFieldsClean p = false →
      db.createPublisher p = .error .validationError) ∧
    (∀ (db : DB) (e : Episode), episodeFieldsClean e = false →
      db.createEpisode e = .error .validationError) ∧
    (∀ err : FrameworkError, err = .validationError) := by
  refine ⟨?_, ?_, ?_, ?_, ?_, ?_⟩
  · intro db a h
    simp [DB.createArtist, artistFieldsClean_id, h]
  · intro db al h
    simp [DB.createAlbum, albumFieldsClean_id, h]
  · intro db s h
    simp [DB.createSong, songFieldsClean_id, h]
  · intro db p h
    simp [DB.createPublisher, publisherFieldsClean_id, h]
  · intro db e h
    simp [DB.createEpisode, episodeFieldsClean_id, h]
  · intro err
    cases err
    rfl

/-- C7 witness: persisting an Artist with an empty required `name` fails
with the framework validation error. -/
theorem C7_witness : DB.empty.createArtist badArtist = .error .validationError :=
  C7_invalid_persist_rejected.1 DB.empty badArtist (by decide)

/-- C8: in every store reachable through the persistence operations,
every Artist's `name` is a non-empty string. -/
theorem C8_artist_name_nonempty {db : DB} (h : Reachable db) :
    ∀ a ∈ db.artists, a.name ≠ "" :=
  fun a ha =>
    charFieldClean_ne_empty (artistClean_name ((reachable_wellFormed h).artistsClean a ha))

/-- C8 witness: the persisted copy of `wArtist` has a non-empty name. -/
theorem C8_witness : ({ wArtist with id := 1 } : Artist).name ≠ "" :=
  C8_artist_name_nonempty
    (Reachable.createArtist Reachable.empty
      (by rfl : DB.empty.createArtist wArtist = .ok (wDB1, 1)))
    { wArtist with id := 1 } (by decide)

/-- C9: in every store reachable through the persistence operations —
so after any sequence of create and update operations — the `name` field
of every stored record of each of the five types has at most 100
characters. -/
theorem C9_name_length_le_100 {db : DB} (h : Reachable db) :
    (∀ a ∈ db.artists, a.name.length ≤ 100) ∧
    (∀ al ∈ db.albums, al.name.length ≤ 100) ∧
    (∀ s ∈ db.songs, s.name.length ≤ 100) ∧
    (∀ p ∈ db.publishers, p.name.length ≤ 100) ∧
    (∀ e ∈ db.episodes, e.name.length ≤ 100) :=
  ⟨fun a ha =>
      charFieldClean_length (artistClean_name ((reachable_wellFormed h).artistsClean a ha)),
   fun al hal =>
      charFieldClean_length (albumClean_name ((reachable_wellFormed h).albumsClean al hal)),
   fun s hs =>
      charFieldClean_length (songClean_name ((reachable_wellFormed h).songsClean s hs)),
   fun p hp =>
      charFieldClean_length (publisherClean_name ((reachable_wellFormed h).publishersClean p hp)),
   fun e he =>
      charFieldClean_length (episodeClean_name ((reachable_wellFormed h).episodesClean e he))⟩

/-- C9 witness: the persisted copy of `wArtist` has a name of at most 100
characters. -/
theorem C9_witness : ({ wArtist with id := 1 } : Artist).name.length ≤ 100 :=
  (C9_name_length_le_100
    (Reachable.createArtist Reachable.empty
      (by rfl : DB.empty.createArtist wArtist = .ok (wDB1, 1)))).1
    { wArtist with id := 1 } (by decide)

/-- C10: deletion cascades — after deleting an Artist no remaining Album
references it, after deleting an Album no remaining Song references it,
after deleting a Publisher no remaining Episode references it, and on
any well-formed store every one of the five delete operations leaves
referential integrity intact (no dangling reference survives any
delete). -/
theorem C10_cascade_delete :
    (∀ (db : DB) (aid : Nat), ∀ al ∈ (db.deleteArtist aid).albums, al.artist ≠ aid) ∧
    (∀ (db : DB) (alid : Nat), ∀ s ∈ (db.deleteAlbum alid).songs, s.album ≠ alid) ∧
    (∀ (db : DB) (pid : Nat), ∀ e ∈ (db.deletePublisher pid).episodes, e.publisher ≠ pid) ∧
    (∀ db : DB, db.wellFormed →
      (∀ aid, (db.deleteArtist aid).refIntegrity) ∧
      (∀ alid, (db.deleteAlbum alid).refIntegrity) ∧
      (∀ sid, (db.deleteSong sid).refIntegrity) ∧
      (∀ pid, (db.deletePublisher pid).refIntegrity) ∧
      (∀ eid, (db.deleteEpisode eid).refIntegrity)) := by
  refine ⟨?_, ?_, ?_, ?_⟩
  · intro db aid al hal
    simp only [DB.deleteArtist] at hal
    exact bne_iff_ne.mp (List.mem_filter.mp hal).2
  · intro db alid s hs
    simp only [DB.deleteAlbum] at hs
    exact bne_iff_ne.mp (List.mem_filter.mp hs).2
  · intro db pid e he
    simp only [DB.deletePublisher] at he
    exact bne_iff_ne.mp (List.mem_filter.mp he).2
  · intro db hwf
    refine ⟨fun aid => ?_, fun alid => ?_, fun sid => ?_, fun pid => ?_, fun eid => ?_⟩
    · have h := deleteArtist_wf aid hwf
      exact ⟨h.albumsFK, h.songsFK, h.episodesFK⟩
    · have h := deleteAlbum_wf alid hwf
      exact ⟨h.albumsFK, h.songsFK, h.episodesFK⟩
    · have h := deleteSong_wf sid hwf
      exact ⟨h.albumsFK, h.songsFK, h.episodesFK⟩
    · have h := deletePublisher_wf pid hwf
      exact ⟨h.albumsFK, h.songsFK, h.episodesFK⟩
    · have h := deleteEpisode_wf eid hwf
      exact ⟨h.albumsFK, h.songsFK, h.episodesFK⟩

/-- C10 witness: deleting artist 1 from the concrete store `wDB2`
(which holds that artist and one album referencing it) leaves a store
with full referential integrity. -/
theorem C10_witness : (wDB2.deleteArtist 1).refIntegrity :=
  (C10_cascade_delete.2.2.2 wDB2
    ⟨by decide, by decide, by decide, by decide, by decide,
     by decide, by decide, by decide⟩).1 1
